import Mathlib

/-!
# Verification of `bcbio/structural/titancna.py`

A shallow embedding of the TitanCNA orchestration module.  Pure string and
table manipulations are translated directly; filesystem reads and freshness
checks are modelled by an oracle (`Env`), and external subprocess invocations
and file writes are recorded as an explicit list of `Effect`s, so that claims
about "how many subprocesses ran" become statements about that list.
-/

namespace Titancna

/-! ## Python string primitives used by the module -/

/-- Python `s.strip(cs)` for an explicit character set: remove the characters of `cs`
from both ends of the string. -/
def stripChars (cs : List Char) (s : String) : String :=
  String.mk (((s.toList.dropWhile (cs.contains ·)).reverse.dropWhile
    (cs.contains ·)).reverse)

/-- Python `str.strip()` (no argument): strip ASCII whitespace from both ends. -/
def pyStrip (s : String) : String :=
  stripChars [' ', '\t', '\n', '\x0d', '\x0b', '\x0c'] s

/-- Python `s.strip("\r\n")` as used on the solution-summary lines. -/
def stripCRLF (s : String) : String :=
  stripChars ['\x0d', '\n'] s

/-- The accumulator loop behind `splitChar`. -/
def splitCharAux (sep : Char) : List Char → List Char → List String
  | [], acc => [String.mk acc.reverse]
  | c :: rest, acc =>
    if c = sep then String.mk acc.reverse :: splitCharAux sep rest []
    else splitCharAux sep rest (c :: acc)

/-- Python `s.split(sep)` for the single-character separators this module
uses (`"\t"`, `","`, `"/"`): every occurrence splits, the empty string
yields `[""]`. -/
def splitChar (sep : Char) (s : String) : List String :=
  splitCharAux sep s.toList []

/-- Character-list implementation of `s.startswith(pre)`. -/
def strStartsWith (pre s : String) : Bool :=
  pre.toList.isPrefixOf s.toList

/-- Character-list implementation of dropping the first `n` characters. -/
def strDrop (s : String) (n : Nat) : String :=
  String.mk (s.toList.drop n)

/-- Python `dict(zip(keys, vals))[k]`: the value of the LAST pair whose key is
`k` (later duplicates overwrite earlier ones), `none` when absent. -/
def dictGet (pairs : List (String × String)) (k : String) : Option String :=
  (pairs.reverse.find? (fun p => p.1 == k)).map (·.2)

/-- Model of `os.path.basename`: the part after the last `/`. -/
def basename (p : String) : String :=
  (splitChar '/' p).getLastD ""

/-- The base part of `os.path.splitext`: cut at the last `.` of the last path
component (identity when that component has no dot). -/
def splitextBase (p : String) : String :=
  let compo := basename p
  if (compo.toList.contains '.') then
    let keep := ((compo.toList.reverse.dropWhile (· ≠ '.')).drop 1).reverse
    String.mk ((p.toList.take (p.length - compo.length)) ++ keep)
  else p

/-- Base part of `utils.splitext_plus`: like `splitext` but peeling a compression
suffix (`.gz`, `.bz2`, `.zip`) first, so `x.vcf.gz ↦ x`. -/
def splitext_plus_base (p : String) : String :=
  let base := splitextBase p
  let ext := strDrop p base.length
  if ext = ".gz" ∨ ext = ".bz2" ∨ ext = ".zip" then splitextBase base else base

/-- Model of `os.path.join` for the two-argument uses in this module. -/
def pathJoin (a b : String) : String := a ++ "/" ++ b

/-- Python `"%02d" % n`. -/
def pad2 (n : Nat) : String :=
  if n < 10 then "0" ++ toString n else toString n

/-! ## `_get_svtype` (lines 184-204) -/

/-- Model of `_get_svtype`: map a TitanCNA event call code to a structural-variant
type, exactly as the chain of set-membership tests in the source. -/
def _get_svtype (call : String) : String :=
  if (["HOMD", "DLOH"] : List String).contains call then "DEL"
  else if (["ALOH", "GAIN", "ASCNA", "BCNA", "UBCNA"] : List String).contains call then "DUP"
  else if (["NLOH"] : List String).contains call then "LOH"
  else "CNV"

/-! ## Data model

The sample dictionaries of the pipeline are modelled by `TItem`, keeping the
keys this module reads (`dd.get_sample_name`, `dd.get_work_dir`,
`dd.get_num_cores`, `dd.get_normalized_depth`, `heterogeneity.get_variants`,
`"sv"`) and an opaque `rest` field standing for every other key.  External
subprocess invocations and file writes are recorded as `Effect`s. -/

/-- One row of the CNVkit normalized-depth table read by `_titan_cn_file`:
the four columns the code selects, plus the dropped remainder. -/
structure CnrRow where
  chromosome : String
  start : Nat
  «end» : Nat
  log2 : String
  extra : List (String × String)
  deriving DecidableEq

/-- One row of the TitanCNA-ready copy-number file written by
`_titan_cn_file` after selection/renaming. -/
structure TitanCnRow where
  chrom : String
  start : Nat
  «end» : Nat
  logR : String
  deriving DecidableEq

/-- One element of `heterogeneity.get_variants(data)`: a variant-call source
dict with the two keys this module reads. -/
structure VrnSource where
  vrn_file : String
  variantcaller : String
  deriving DecidableEq

/-- The dict built by `_finalize_sv` and appended to the tumor sample's
`"sv"` list. -/
structure SvOut where
  variantcaller : String
  purity : String
  ploidy : String
  cellular_prevalence : List String
  plot : List String
  subclones : String
  vrn_file : String
  deriving DecidableEq

/-- A sample data dictionary, restricted to the keys this module touches;
`rest` stands opaquely for all remaining keys. -/
structure TItem where
  name : String
  work_dir_root : String
  cores : Nat
  normalized_depth : String
  vrn_files : List VrnSource
  sv : Option (List SvOut)
  rest : String
  deriving DecidableEq

/-- The result of `vcfutils.get_paired(items)` when a tumor/normal pairing
exists (computed by an external collaborator). -/
structure Paired where
  tumor_data : TItem
  normal_data : Option TItem
  deriving DecidableEq

/-- An observable side effect: a subprocess invocation or a file write. -/
inductive Effect where
  | titanCNA (sample het_file cn_file : String) (num_clusters ploidy cores : Nat)
  | selectSolution (ploidy_inputs out_file : String)
  | writeCn (out_file : String) (rows : List TitanCnRow)
  | writeVcf (out_file : String) (lines : List String)
  | bgzipIndex (out_file : String)
  deriving DecidableEq

/-- Predicate: the effect is one sweep-cell solver invocation (`titanCNA.R`). -/
def Effect.isTitanCell : Effect → Bool
  | .titanCNA .. => true
  | _ => false

/-- Predicate: the effect is one selector invocation
(`titanCNA_selectSolution.R`). -/
def Effect.isSelect : Effect → Bool
  | .selectSolution .. => true
  | _ => false

/-- Predicate: the effect is one compression/indexing hand-off
(`vcfutils.bgzip_and_index`). -/
def Effect.isBgzip : Effect → Bool
  | .bgzipIndex .. => true
  | _ => false

/-- The ambient world: file contents, freshness and existence oracles, and
the external `bubbletree.prep_vrn_file` collaborator.  Each function models
what the filesystem answers at the moment the code asks. -/
structure Env where
  fileLines : String → List String
  fileUptodate : String → String → Bool
  fileExists : String → Bool
  cnrRows : String → List CnrRow
  prepVrnFile : String → String → String → String

/-! ## The module's functions (lines 19-141, 160-182) -/

/-- Model of `_sv_workdir` (lines 109-111): the per-sample working directory
(`safe_makedir` only creates it, modelled as pure path construction). -/
def _sv_workdir (data : TItem) : String :=
  pathJoin (pathJoin (pathJoin data.work_dir_root "structural") data.name) "titancna"

/-- The counting loop of `_should_run`: scan `enumerate`d lines, flip to true
at the first line whose index exceeds 1. -/
def shouldRunLoop : Nat → List String → Bool
  | _, [] => false
  | i, _ :: rest => if i > 1 then true else shouldRunLoop (i + 1) rest

/-- Model of `_should_run` (lines 67-76): true when the het-site file has a line of
index > 1, i.e. at least three lines. -/
def _should_run (env : Env) (het_file : String) : Bool :=
  shouldRunLoop 0 (env.fileLines het_file)

/-- Model of `_titan_het_file` (lines 113-125): asserts a non-empty variant-source
list (`Except.error` models the `AssertionError`), then hands the FIRST
source to the external `bubbletree.prep_vrn_file` collaborator. -/
def _titan_het_file (env : Env) (vrn_files : List VrnSource) (work_dir : String) :
    Except String String :=
  match vrn_files with
  | [] => .error "Did not find compatible variant calling files for TitanCNA inputs"
  | v :: _ => .ok (env.prepVrnFile v.vrn_file v.variantcaller work_dir)

/-- The per-row transformation of `_titan_cn_file` (lines 137-139): select
columns chromosome/start/end/log2, rename to chrom/start/end/logR, and shift
`start` by +1. -/
def cnAdaptRow (r : CnrRow) : TitanCnRow :=
  { chrom := r.chromosome, start := r.start + 1, «end» := r.«end», logR := r.log2 }

/-- Model of `_titan_cn_file` (lines 127-141): write the adapted copy-number table
unless the output is already up-to-date against the input. -/
def _titan_cn_file (env : Env) (cnr_file work_dir : String) : String × List Effect :=
  let out_file := pathJoin work_dir (splitext_plus_base (basename cnr_file) ++ ".cn")
  if env.fileUptodate out_file cnr_file then (out_file, [])
  else (out_file, [.writeCn out_file ((env.cnrRows cnr_file).map cnAdaptRow)])

/-- Model of `_run_titancna` (lines 89-107): one sweep cell.  Skips the solver when
the `<out_dir>.titan.txt` sentinel is up-to-date against `cn_file`; always
returns the per-ploidy directory. -/
def _run_titancna (env : Env) (cn_file het_file : String) (ploidy num_clusters : Nat)
    (work_dir : String) (data : TItem) : String × List Effect :=
  let sample := data.name
  let cores := data.cores
  let ploidy_dir := pathJoin work_dir ("run_ploidy" ++ toString ploidy)
  let cluster_dir := sample ++ "_cluster" ++ pad2 num_clusters
  let out_dir := pathJoin ploidy_dir cluster_dir
  if env.fileUptodate (out_dir ++ ".titan.txt") cn_file then (ploidy_dir, [])
  else (ploidy_dir, [.titanCNA sample het_file cn_file num_clusters ploidy cores])

/-- Model of `_run_select_solution` (lines 78-87): invoke the selector with one
`--ploidyRun<P>=<dir>` argument per recorded pair, unless
`optimalClusters.txt` already exists. -/
def _run_select_solution (env : Env) (ploidy_outdirs : List (Nat × String))
    (work_dir : String) : String × List Effect :=
  let out_file := pathJoin work_dir "optimalClusters.txt"
  if env.fileExists out_file then (out_file, [])
  else
    let ploidy_inputs := String.intercalate " "
      (ploidy_outdirs.map (fun pd => "--ploidyRun" ++ toString pd.1 ++ "=" ++ pd.2))
    (out_file, [.selectSolution ploidy_inputs out_file])

/-- The `_vcf_header` literal (lines 145-158), as its list of lines. -/
def _vcf_header : List String :=
  ["##fileformat=VCFv4.2",
   "##source=TitanCNA",
   "##INFO=<ID=END,Number=1,Type=Integer,Description=\"End position of the variant described in this record\">",
   "##INFO=<ID=SVTYPE,Number=1,Type=String,Description=\"Type of structural variant\">",
   "##INFO=<ID=FOLD_CHANGE_LOG,Number=1,Type=Float,Description=\"Log fold change\">",
   "##INFO=<ID=CN,Number=1,Type=Integer,Description=\"Copy Number: Overall\">",
   "##INFO=<ID=MajorCN,Number=1,Type=Integer,Description=\"Copy Number: Major allele\">",
   "##INFO=<ID=MinorCN,Number=1,Type=Integer,Description=\"Copy Number: Minor allele\">",
   "##ALT=<ID=DEL,Description=\"Deletion\">",
   "##ALT=<ID=DUP,Description=\"Duplication\">",
   "##ALT=<ID=LOS,Description=\"Loss of heterozygosity\">",
   "##ALT=<ID=CNV,Description=\"Copy number variable region\">",
   "##FORMAT=<ID=GT,Number=1,Type=String,Description=\"Genotype\">"]

/-- The symbolic ALT identifiers declared by the preamble, extracted from the
`##ALT=<ID=` lines. -/
def vcfAltIds : List String :=
  (_vcf_header.filter (fun l => strStartsWith "##ALT=<ID=" l)).map
    (fun l => (splitChar ',' (strDrop l 10)).headD "")

/-- The column-header line written after the preamble (lines 169-171). -/
def vcfColHeader (sample : String) : String :=
  String.intercalate "\t"
    ["#CHROM", "POS", "ID", "REF", "ALT", "QUAL", "FILTER", "INFO", "FORMAT", sample]

/-- One data row of `_segs_to_vcf` (lines 174-181): zip the segs header with
the stripped, tab-split line and assemble the 10 VCF fields.  The source
raises `KeyError` on a missing column; the model substitutes "" (every claim
concerns rows from well-formed tables, where the two agree). -/
def segLineToRow (header : List String) (line : String) : List String :=
  let cur := header.zip (splitChar '\t' (pyStrip line))
  let get := fun k => (dictGet cur k).getD ""
  let svtype := _get_svtype (get "TITAN_call")
  let info := ["SVTYPE=" ++ svtype, "END=" ++ get "End_Position.bp.",
               "CN=" ++ get "Copy_Number", "MajorCN=" ++ get "MajorCN",
               "MinorCN=" ++ get "MinorCN", "FOLD_CHANGE_LOG=" ++ get "Median_logR"]
  [get "Chromosome", get "Start_Position.bp.", ".", "N", "<" ++ svtype ++ ">", ".", ".",
   String.intercalate ";" info, "GT", "0/1"]

/-- The full text written by `_segs_to_vcf` (lines 168-181): preamble, column
header, then one row per data line of the segs file. -/
def vcfContent (segLines : List String) (sample : String) : List String :=
  let header := splitChar '\t' (pyStrip (segLines.headD ""))
  _vcf_header ++ [vcfColHeader sample] ++
    (segLines.tail.map (fun l => String.intercalate "\t" (segLineToRow header l)))

/-- Model of `_segs_to_vcf` (lines 160-182): write the VCF only when neither the
compressed nor the uncompressed output exists, then always hand the file to
`vcfutils.bgzip_and_index` (external), whose result path is returned. -/
def _segs_to_vcf (env : Env) (in_file : String) (data : TItem) : String × List Effect :=
  let out_file := splitext_plus_base in_file ++ ".vcf"
  let writes :=
    if !env.fileExists (out_file ++ ".gz") && !env.fileExists out_file then
      [Effect.writeVcf out_file (vcfContent (env.fileLines in_file) data.name)]
    else []
  (out_file ++ ".gz", writes ++ [Effect.bgzipIndex out_file])

/-- Model of `_finalize_sv` (lines 49-65): parse the two-line solution summary by
zipping header against values, and assemble the sv entry.  As in
`segLineToRow`, a missing required key (a `KeyError` in the source) is
modelled by "". -/
def _finalize_sv (env : Env) (solution_file : String) (data : TItem) :
    SvOut × List Effect :=
  let lines := env.fileLines solution_file
  let solution := (splitChar '\t' (stripCRLF (lines.getD 0 ""))).zip
                  (splitChar '\t' (stripCRLF (lines.getD 1 "")))
  let get := fun k => (dictGet solution k).getD ""
  let path := get "path"
  let base := basename path
  let plot := (([".Rplots.pdf", "/" ++ base ++ "_CF.pdf", "/" ++ base ++ "_CNA.pdf",
                 "/" ++ base ++ "_LOH.pdf"].map (fun ext => path ++ ext)).filter
               env.fileExists)
  let subclones := path ++ ".segs.txt"
  let conv := _segs_to_vcf env subclones data
  ({ variantcaller := "titancna", purity := get "purity", ploidy := get "ploidy",
     cellular_prevalence := (splitChar ',' (get "cellPrev")).map pyStrip,
     plot := plot, subclones := subclones, vrn_file := conv.1 }, conv.2)

/-- The inner loop of `run` (lines 32-33): `for num_clusters in [1, 2, 3]`,
each iteration overwriting `out_dir`. -/
def sweepClusters (env : Env) (cn_file het_file : String) (ploidy : Nat)
    (work_dir : String) (data : TItem) : String × List Effect :=
  ([1, 2, 3] : List Nat).foldl
    (fun acc num_clusters =>
      let r := _run_titancna env cn_file het_file ploidy num_clusters work_dir data
      (r.1, acc.2 ++ r.2))
    ("", [])

/-- The outer loop of `run` (lines 30-34): `for ploidy in [2, 3, 4]`,
appending `(ploidy, out_dir)` after the inner loop, so only the last
cluster-count's directory is recorded per ploidy. -/
def sweepGrid (env : Env) (cn_file het_file work_dir : String) (data : TItem) :
    List (Nat × String) × List Effect :=
  ([2, 3, 4] : List Nat).foldl
    (fun acc ploidy =>
      let r := sweepClusters env cn_file het_file ploidy work_dir data
      (acc.1 ++ [(ploidy, r.1)], acc.2 ++ r.2))
    ([], [])

/-- Model of `run` (lines 19-47).  `paired` is the result of the external
`vcfutils.get_paired(items)`; `Except.error` models the uncaught
`AssertionError` of `_titan_het_file`.  Returns the output items together
with the accumulated effects. -/
def run (env : Env) (items : List TItem) (paired : Option Paired) :
    Except String (List TItem × List Effect) :=
  match paired with
  | none => .ok (items, [])
  | some p =>
    let work_dir := _sv_workdir p.tumor_data
    let cn := _titan_cn_file env p.tumor_data.normalized_depth work_dir
    match _titan_het_file env p.tumor_data.vrn_files work_dir with
    | .error e => .error e
    | .ok het_file =>
      if _should_run env het_file then
        let grid := sweepGrid env cn.1 het_file work_dir p.tumor_data
        let sel := _run_select_solution env grid.1 work_dir
        let fin := _finalize_sv env sel.1 p.tumor_data
        let tumor := { p.tumor_data with sv := some ((p.tumor_data.sv.getD []) ++ [fin.1]) }
        let out := (match p.normal_data with | some n => [n] | none => []) ++ [tumor]
        .ok (out, cn.2 ++ grid.2 ++ sel.2 ++ fin.2)
      else
        .ok (items, cn.2)

/-! ## Concrete fixtures used by the witnesses -/

/-- A concrete tumor sample. -/
def tumorS1 : TItem :=
  { name := "S1", work_dir_root := "/work", cores := 4, normalized_depth := "/in/S1.cnr",
    vrn_files := [⟨"/in/S1-vardict.vcf.gz", "vardict"⟩], sv := none, rest := "tumor-rest" }

/-- A concrete matched normal sample. -/
def normalN1 : TItem :=
  { name := "N1", work_dir_root := "/work", cores := 4, normalized_depth := "",
    vrn_files := [], sv := none, rest := "normal-rest" }

/-- The concrete pairing of the two samples above. -/
def pairedS1 : Paired := ⟨tumorS1, some normalN1⟩

/-- A world in which no output exists yet and the het table holds a header
and two data rows. -/
def envFresh : Env :=
  { fileLines := fun _ => ["Chr\tPosition", "1\t1000", "1\t2000"],
    fileUptodate := fun _ _ => false,
    fileExists := fun _ => false,
    cnrRows := fun _ => [⟨"chr1", 100, 200, "0.27", [("depth", "57")]⟩],
    prepVrnFile := fun _ _ work_dir => work_dir ++ "/S1.het.csv" }

/-- The same world with a het table of only a header and one data row. -/
def envThin : Env :=
  { envFresh with fileLines := fun _ => ["Chr\tPosition", "1\t1000"] }

/-- A world in which every output already exists and is up-to-date. -/
def envDone : Env :=
  { envFresh with fileUptodate := fun _ _ => true, fileExists := fun _ => true }

/-- A world whose every file reads as the worked solution-summary example of
the spec. -/
def envSol : Env :=
  { envFresh with fileLines := fun _ =>
      ["purity\tploidy\tcellPrev\tpath", "0.4\t2.1\t0.3, 0.7\t/out/sample"] }

/-! ## Claim theorems -/

/-- C1: `_get_svtype` returns "DEL" exactly on HOMD/DLOH, "DUP" exactly on
ALOH/GAIN/ASCNA/BCNA/UBCNA, "LOH" exactly on NLOH, and "CNV" exactly on every
other string — in particular on "XYZ" and on "HET". -/
theorem get_svtype_classification (call : String) :
    (_get_svtype call = "DEL" ↔ (call = "HOMD" ∨ call = "DLOH")) ∧
    (_get_svtype call = "DUP" ↔
      (call = "ALOH" ∨ call = "GAIN" ∨ call = "ASCNA" ∨ call = "BCNA" ∨ call = "UBCNA")) ∧
    (_get_svtype call = "LOH" ↔ call = "NLOH") ∧
    (_get_svtype call = "CNV" ↔
      ¬ (call = "HOMD" ∨ call = "DLOH" ∨ call = "ALOH" ∨ call = "GAIN" ∨
         call = "ASCNA" ∨ call = "BCNA" ∨ call = "UBCNA" ∨ call = "NLOH")) ∧
    _get_svtype "XYZ" = "CNV" ∧ _get_svtype "HET" = "CNV" := by
  by_cases h1 : call = "HOMD"
  · subst h1; decide
  by_cases h2 : call = "DLOH"
  · subst h2; decide
  by_cases h3 : call = "ALOH"
  · subst h3; decide
  by_cases h4 : call = "GAIN"
  · subst h4; decide
  by_cases h5 : call = "ASCNA"
  · subst h5; decide
  by_cases h6 : call = "BCNA"
  · subst h6; decide
  by_cases h7 : call = "UBCNA"
  · subst h7; decide
  by_cases h8 : call = "NLOH"
  · subst h8; decide
  have hc : _get_svtype call = "CNV" := by
    unfold _get_svtype
    rw [if_neg, if_neg, if_neg]
    · simp only [List.contains_cons, List.contains_nil, Bool.or_false, Bool.or_eq_true,
        beq_iff_eq, not_or]
      exact h8
    · simp only [List.contains_cons, List.contains_nil, Bool.or_false, Bool.or_eq_true,
        beq_iff_eq, not_or]
      exact ⟨h3, h4, h5, h6, h7⟩
    · simp only [List.contains_cons, List.contains_nil, Bool.or_false, Bool.or_eq_true,
        beq_iff_eq, not_or]
      exact ⟨h1, h2⟩
  rw [hc]
  refine ⟨⟨fun h => absurd h (by decide), ?_⟩, ⟨fun h => absurd h (by decide), ?_⟩,
          ⟨fun h => absurd h (by decide), ?_⟩, ⟨fun _ => ?_, fun _ => rfl⟩,
          by decide, by decide⟩
  · rintro (h | h)
    exacts [absurd h h1, absurd h h2]
  · rintro (h | h | h | h | h)
    exacts [absurd h h3, absurd h h4, absurd h h5, absurd h h6, absurd h h7]
  · exact fun h => absurd h h8
  · rintro (h | h | h | h | h | h | h | h)
    exacts [h1 h, h2 h, h3 h, h4 h, h5 h, h6 h, h7 h, h8 h]

/-- Helper: `_get_svtype` always lands in the four emitted types. -/
theorem get_svtype_mem (call : String) :
    _get_svtype call ∈ (["DEL", "DUP", "LOH", "CNV"] : List String) := by
  unfold _get_svtype
  split
  · simp
  · split
    · simp
    · split <;> simp

/-- C9: every data row assembled by `_segs_to_vcf` carries reference allele
"N" (field 3), genotype "0/1" (field 9), and a symbolic alt `<T>` (field 4)
with T among DEL/DUP/LOH/CNV, while the fixed preamble declares exactly the
ALT identifiers DEL, DUP, LOS and CNV — LOH is emitted although the preamble
declares LOS. -/
theorem segs_row_invariant (header : List String) (line : String) :
    (segLineToRow header line).get? 3 = some "N" ∧
    (segLineToRow header line).get? 9 = some "0/1" ∧
    (∃ t ∈ (["DEL", "DUP", "LOH", "CNV"] : List String),
      (segLineToRow header line).get? 4 = some ("<" ++ t ++ ">")) ∧
    vcfAltIds = ["DEL", "DUP", "LOS", "CNV"] := by
  refine ⟨rfl, rfl,
    ⟨_get_svtype ((dictGet (header.zip (splitChar '\t' (pyStrip line))) "TITAN_call").getD ""),
     get_svtype_mem _, rfl⟩, by decide⟩

/-- C7: `_segs_to_vcf` regenerates nothing when either the compressed or the
uncompressed target already exists; otherwise it writes the file.  It never
consults the freshness oracle (the result is invariant under changing it),
and it always hands the uncompressed path on to compression/indexing. -/
theorem segs_to_vcf_create_once (env : Env) (in_file : String) (data : TItem) :
    (_segs_to_vcf env in_file data =
      (splitext_plus_base in_file ++ ".vcf" ++ ".gz",
       (if env.fileExists (splitext_plus_base in_file ++ ".vcf" ++ ".gz")
           || env.fileExists (splitext_plus_base in_file ++ ".vcf") then ([] : List Effect)
        else [Effect.writeVcf (splitext_plus_base in_file ++ ".vcf")
                (vcfContent (env.fileLines in_file) data.name)]) ++
       [Effect.bgzipIndex (splitext_plus_base in_file ++ ".vcf")])) ∧
    ∀ up, _segs_to_vcf { env with fileUptodate := up } in_file data =
          _segs_to_vcf env in_file data := by
  constructor
  · unfold _segs_to_vcf
    cases h1 : env.fileExists (splitext_plus_base in_file ++ ".vcf" ++ ".gz") <;>
      cases h2 : env.fileExists (splitext_plus_base in_file ++ ".vcf") <;>
        simp [h1, h2]
  · intro up
    rfl

/-- C8: `_titan_het_file` fails with the missing-variant-source assertion on
an empty source list; on any non-empty list it proceeds using exactly the
first source, never consulting the tail. -/
theorem titan_het_file_first_source (env : Env) (work_dir : String) :
    _titan_het_file env [] work_dir =
      .error "Did not find compatible variant calling files for TitanCNA inputs" ∧
    (∀ v rest, _titan_het_file env (v :: rest) work_dir =
      .ok (env.prepVrnFile v.vrn_file v.variantcaller work_dir)) ∧
    (∀ v rest rest', _titan_het_file env (v :: rest) work_dir =
      _titan_het_file env (v :: rest') work_dir) :=
  ⟨rfl, fun _ _ => rfl, fun _ _ _ => rfl⟩

/-- C5: the copy-number adaptation keeps chromosome and end, renames the
columns to chrom/logR, drops every other column (by construction of
`TitanCnRow`), and shifts start by exactly +1; the rows `_titan_cn_file`
writes are exactly the adapted input rows.  In particular a segment with
start=100 and end=200 is written with start=101 and end=200. -/
theorem titan_cn_row_adapt (r : CnrRow) (env : Env) (cnr_file work_dir : String) :
    (cnAdaptRow r).chrom = r.chromosome ∧
    (cnAdaptRow r).start = r.start + 1 ∧
    (cnAdaptRow r).«end» = r.«end» ∧
    (cnAdaptRow r).logR = r.log2 ∧
    (_titan_cn_file env cnr_file work_dir).2 =
      (if env.fileUptodate (pathJoin work_dir (splitext_plus_base (basename cnr_file) ++ ".cn"))
          cnr_file
       then ([] : List Effect)
       else [.writeCn (pathJoin work_dir (splitext_plus_base (basename cnr_file) ++ ".cn"))
              ((env.cnrRows cnr_file).map cnAdaptRow)]) ∧
    cnAdaptRow { chromosome := "chr1", start := 100, «end» := 200, log2 := "0.27",
                 extra := [("depth", "57")] } =
      { chrom := "chr1", start := 101, «end» := 200, logR := "0.27" } := by
  refine ⟨rfl, rfl, rfl, rfl, ?_, by decide⟩
  unfold _titan_cn_file
  rw [apply_ite Prod.snd]

/-- Helper: the loop of `_should_run` is true exactly on lists of three or
more lines. -/
theorem shouldRunLoop_spec : ∀ ls : List String, shouldRunLoop 0 ls = decide (2 < ls.length)
  | [] => rfl
  | [_] => rfl
  | [_, _] => rfl
  | _ :: _ :: _ :: _ => by simp [shouldRunLoop]

/-- Helper: a sweep cell always reports the per-ploidy directory. -/
theorem run_titancna_fst (env : Env) (cn_file het_file : String) (ploidy num_clusters : Nat)
    (work_dir : String) (data : TItem) :
    (_run_titancna env cn_file het_file ploidy num_clusters work_dir data).1 =
      pathJoin work_dir ("run_ploidy" ++ toString ploidy) := by
  unfold _run_titancna
  dsimp only
  split <;> rfl

/-- Helper: the inner cluster loop reports the per-ploidy directory of its
last iteration. -/
theorem sweepClusters_fst (env : Env) (cn_file het_file : String) (ploidy : Nat)
    (work_dir : String) (data : TItem) :
    (sweepClusters env cn_file het_file ploidy work_dir data).1 =
      (_run_titancna env cn_file het_file ploidy 3 work_dir data).1 := by
  simp [sweepClusters]

/-- Helper: the recorded `(ploidy, out_dir)` pairs are the three per-ploidy
directories, each taken from the `num_clusters = 3` iteration. -/
theorem sweepGrid_fst (env : Env) (cn_file het_file work_dir : String) (data : TItem) :
    (sweepGrid env cn_file het_file work_dir data).1 =
      ([2, 3, 4] : List Nat).map
        (fun ploidy => (ploidy, (_run_titancna env cn_file het_file ploidy 3 work_dir data).1)) := by
  simp [sweepGrid, sweepClusters]

/-- Helper: with nothing up-to-date, the sweep runs all nine cells, clusters
innermost. -/
theorem sweepGrid_effects_fresh (env : Env) (cn_file het_file work_dir : String) (data : TItem)
    (hu : env.fileUptodate = fun _ _ => false) :
    (sweepGrid env cn_file het_file work_dir data).2 =
      [.titanCNA data.name het_file cn_file 1 2 data.cores,
       .titanCNA data.name het_file cn_file 2 2 data.cores,
       .titanCNA data.name het_file cn_file 3 2 data.cores,
       .titanCNA data.name het_file cn_file 1 3 data.cores,
       .titanCNA data.name het_file cn_file 2 3 data.cores,
       .titanCNA data.name het_file cn_file 3 3 data.cores,
       .titanCNA data.name het_file cn_file 1 4 data.cores,
       .titanCNA data.name het_file cn_file 2 4 data.cores,
       .titanCNA data.name het_file cn_file 3 4 data.cores] := by
  simp [sweepGrid, sweepClusters, _run_titancna, hu]

/-- Helper: with no `optimalClusters.txt` yet, the selector runs once with one
`--ploidyRun<P>=<dir>` argument per recorded pair. -/
theorem select_solution_fresh (env : Env) (ploidy_outdirs : List (Nat × String))
    (work_dir : String)
    (hex : env.fileExists (pathJoin work_dir "optimalClusters.txt") = false) :
    _run_select_solution env ploidy_outdirs work_dir =
      (pathJoin work_dir "optimalClusters.txt",
       [.selectSolution
          (String.intercalate " "
            (ploidy_outdirs.map (fun pd => "--ploidyRun" ++ toString pd.1 ++ "=" ++ pd.2)))
          (pathJoin work_dir "optimalClusters.txt")]) := by
  unfold _run_select_solution
  simp [hex]

/-- Helper: the per-effect counts of a `_segs_to_vcf` invocation: no solver,
no selector, exactly one compression hand-off. -/
theorem segs_to_vcf_counts (env : Env) (in_file : String) (data : TItem) :
    ((_segs_to_vcf env in_file data).2).countP Effect.isTitanCell = 0 ∧
    ((_segs_to_vcf env in_file data).2).countP Effect.isSelect = 0 ∧
    ((_segs_to_vcf env in_file data).2).countP Effect.isBgzip = 1 := by
  unfold _segs_to_vcf
  dsimp only
  split <;> simp [Effect.isTitanCell, Effect.isSelect, Effect.isBgzip]

/-- Helper: the copy-number preparation invokes neither the solver, nor the
selector, nor compression. -/
theorem titan_cn_file_counts (env : Env) (cnr_file work_dir : String) :
    ((_titan_cn_file env cnr_file work_dir).2).countP Effect.isTitanCell = 0 ∧
    ((_titan_cn_file env cnr_file work_dir).2).countP Effect.isSelect = 0 ∧
    ((_titan_cn_file env cnr_file work_dir).2).countP Effect.isBgzip = 0 := by
  unfold _titan_cn_file
  dsimp only
  split <;> simp [Effect.isTitanCell, Effect.isSelect, Effect.isBgzip]

/-- Helper: `run` in the passing branch, written out in terms of its stages. -/
theorem run_full_eq (env : Env) (items : List TItem) (p : Paired) (v : VrnSource)
    (vs : List VrnSource) (hv : p.tumor_data.vrn_files = v :: vs)
    (hs : _should_run env
      (env.prepVrnFile v.vrn_file v.variantcaller (_sv_workdir p.tumor_data)) = true) :
    run env items (some p) =
      (let work_dir := _sv_workdir p.tumor_data
       let cn := _titan_cn_file env p.tumor_data.normalized_depth work_dir
       let het := env.prepVrnFile v.vrn_file v.variantcaller work_dir
       let grid := sweepGrid env cn.1 het work_dir p.tumor_data
       let sel := _run_select_solution env grid.1 work_dir
       let fin := _finalize_sv env sel.1 p.tumor_data
       .ok (p.normal_data.toList ++
             [{ p.tumor_data with sv := some (p.tumor_data.sv.getD [] ++ [fin.1]) }],
            cn.2 ++ grid.2 ++ sel.2 ++ fin.2)) := by
  unfold run
  dsimp only
  rw [hv]
  simp only [_titan_het_file]
  rw [if_pos hs]
  cases p.normal_data <;> rfl

/-- Helper: `run` in the skipping branch: the inputs come back unchanged and
only the copy-number preparation may have written anything. -/
theorem run_skip_eq (env : Env) (items : List TItem) (p : Paired) (v : VrnSource)
    (vs : List VrnSource) (hv : p.tumor_data.vrn_files = v :: vs)
    (hs : _should_run env
      (env.prepVrnFile v.vrn_file v.variantcaller (_sv_workdir p.tumor_data)) = false) :
    run env items (some p) =
      .ok (items,
           (_titan_cn_file env p.tumor_data.normalized_depth (_sv_workdir p.tumor_data)).2) := by
  unfold run
  dsimp only
  rw [hv]
  simp only [_titan_het_file]
  rw [if_neg (by simp [hs])]

/-- Helper: the translation stage invokes no solver and no selector, and
hands exactly one file to compression. -/
theorem finalize_sv_counts (env : Env) (solution_file : String) (data : TItem) :
    ((_finalize_sv env solution_file data).2).countP Effect.isTitanCell = 0 ∧
    ((_finalize_sv env solution_file data).2).countP Effect.isSelect = 0 ∧
    ((_finalize_sv env solution_file data).2).countP Effect.isBgzip = 1 := by
  unfold _finalize_sv
  dsimp only
  exact segs_to_vcf_counts env _ data

/-- C10: when the full pipeline runs, the output list is the normal sample
(when present) unchanged, then the tumor sample whose only change is one
appended titancna entry on its `sv` list (created empty when absent); the
`with sv := ...` update copies every other tumor field. -/
theorem run_output_frame (env : Env) (items : List TItem) (p : Paired) (v : VrnSource)
    (vs : List VrnSource) (hv : p.tumor_data.vrn_files = v :: vs)
    (hs : _should_run env
      (env.prepVrnFile v.vrn_file v.variantcaller (_sv_workdir p.tumor_data)) = true) :
    ∃ entry effs,
      run env items (some p) =
        .ok (p.normal_data.toList ++
              [{ p.tumor_data with sv := some (p.tumor_data.sv.getD [] ++ [entry]) }], effs) ∧
      entry.variantcaller = "titancna" :=
  ⟨_, _, run_full_eq env items p v vs hv hs, rfl⟩

/-- C2: with a valid pairing and a variant source: when the prepared het-site
file has at most two lines, `run` returns the input items unchanged and the
effects of the copy-number preparation alone, which contain zero sweep
invocations; when it has at least three lines — on a fresh cache, so the
cells execute rather than resume — the full pipeline runs: nine sweep cells,
one selection, one translation hand-off to compression. -/
theorem run_gating (env : Env) (items : List TItem) (p : Paired) (v : VrnSource)
    (vs : List VrnSource) (hv : p.tumor_data.vrn_files = v :: vs) :
    ((env.fileLines
        (env.prepVrnFile v.vrn_file v.variantcaller (_sv_workdir p.tumor_data))).length ≤ 2 →
      run env items (some p) =
        .ok (items,
          (_titan_cn_file env p.tumor_data.normalized_depth (_sv_workdir p.tumor_data)).2) ∧
      ((_titan_cn_file env p.tumor_data.normalized_depth (_sv_workdir p.tumor_data)).2).countP
        Effect.isTitanCell = 0) ∧
    (2 < (env.fileLines
        (env.prepVrnFile v.vrn_file v.variantcaller (_sv_workdir p.tumor_data))).length →
      env.fileUptodate = (fun _ _ => false) →
      env.fileExists = (fun _ => false) →
      ∃ out effs, run env items (some p) = .ok (out, effs) ∧
        effs.countP Effect.isTitanCell = 9 ∧
        effs.countP Effect.isSelect = 1 ∧
        effs.countP Effect.isBgzip = 1) := by
  constructor
  · intro hlen
    have hs : _should_run env
        (env.prepVrnFile v.vrn_file v.variantcaller (_sv_workdir p.tumor_data)) = false := by
      unfold _should_run
      rw [shouldRunLoop_spec]
      simpa using Nat.not_lt.mpr hlen
    exact ⟨run_skip_eq env items p v vs hv hs, (titan_cn_file_counts env _ _).1⟩
  · intro hlen hu hf
    have hs : _should_run env
        (env.prepVrnFile v.vrn_file v.variantcaller (_sv_workdir p.tumor_data)) = true := by
      unfold _should_run
      rw [shouldRunLoop_spec]
      simpa using hlen
    refine ⟨_, _, run_full_eq env items p v vs hv hs, ?_, ?_, ?_⟩ <;>
      simp [hu, hf, _titan_cn_file, sweepGrid, sweepClusters, _run_titancna,
        _run_select_solution, _finalize_sv, _segs_to_vcf, List.countP_append,
        List.countP_cons, Effect.isTitanCell, Effect.isSelect, Effect.isBgzip]

/-- C3: a fresh full run over the 3x3 grid performs exactly nine sweep-cell
invocations and exactly one selector invocation, whose arguments are one
`--ploidyRun<P>=<dir>` flag per distinct ploidy 2, 3, 4 targeting the single
`optimalClusters.txt`, and each ploidy's recorded directory is the one
returned by the `num_clusters = 3` (last) iteration. -/
theorem run_sweep_scenario (env : Env) (items : List TItem) (p : Paired) (v : VrnSource)
    (vs : List VrnSource) (hv : p.tumor_data.vrn_files = v :: vs)
    (hs : _should_run env
      (env.prepVrnFile v.vrn_file v.variantcaller (_sv_workdir p.tumor_data)) = true)
    (hu : env.fileUptodate = (fun _ _ => false))
    (hf : env.fileExists = (fun _ => false)) :
    ∃ out effs, run env items (some p) = .ok (out, effs) ∧
      effs.countP Effect.isTitanCell = 9 ∧
      effs.filter Effect.isSelect =
        [.selectSolution
          (String.intercalate " " (([2, 3, 4] : List Nat).map (fun pl =>
            "--ploidyRun" ++ toString pl ++ "=" ++
              pathJoin (_sv_workdir p.tumor_data) ("run_ploidy" ++ toString pl))))
          (pathJoin (_sv_workdir p.tumor_data) "optimalClusters.txt")] ∧
      (sweepGrid env
          (_titan_cn_file env p.tumor_data.normalized_depth (_sv_workdir p.tumor_data)).1
          (env.prepVrnFile v.vrn_file v.variantcaller (_sv_workdir p.tumor_data))
          (_sv_workdir p.tumor_data) p.tumor_data).1 =
        ([2, 3, 4] : List Nat).map (fun pl =>
          (pl, (_run_titancna env
                  (_titan_cn_file env p.tumor_data.normalized_depth
                    (_sv_workdir p.tumor_data)).1
                  (env.prepVrnFile v.vrn_file v.variantcaller (_sv_workdir p.tumor_data))
                  pl 3 (_sv_workdir p.tumor_data) p.tumor_data).1)) := by
  refine ⟨_, _, run_full_eq env items p v vs hv hs, ?_, ?_, sweepGrid_fst env _ _ _ _⟩ <;>
    simp [hu, hf, _titan_cn_file, sweepGrid, sweepClusters, _run_titancna,
      _run_select_solution, _finalize_sv, _segs_to_vcf, List.countP_append,
      List.countP_cons, Effect.isTitanCell, Effect.isSelect, Effect.isBgzip]

/-- C6: parsing a two-line tab-delimited solution summary zips header to
values: purity and ploidy are the mapped value strings, cellular prevalence
is the comma-split, per-element whitespace-stripped list of the cellPrev
value, and the plot list keeps, in order, exactly those of the four
candidate paths that exist on disk. -/
theorem finalize_sv_parse (env : Env) (solution_file : String) (data : TItem)
    (hdr vals pu pl cp pa : String)
    (hlines : env.fileLines solution_file = [hdr, vals])
    (hpu : dictGet ((splitChar '\t' (stripCRLF hdr)).zip (splitChar '\t' (stripCRLF vals)))
      "purity" = some pu)
    (hpl : dictGet ((splitChar '\t' (stripCRLF hdr)).zip (splitChar '\t' (stripCRLF vals)))
      "ploidy" = some pl)
    (hcp : dictGet ((splitChar '\t' (stripCRLF hdr)).zip (splitChar '\t' (stripCRLF vals)))
      "cellPrev" = some cp)
    (hpa : dictGet ((splitChar '\t' (stripCRLF hdr)).zip (splitChar '\t' (stripCRLF vals)))
      "path" = some pa) :
    (_finalize_sv env solution_file data).1.purity = pu ∧
    (_finalize_sv env solution_file data).1.ploidy = pl ∧
    (_finalize_sv env solution_file data).1.cellular_prevalence =
      (splitChar ',' cp).map pyStrip ∧
    (_finalize_sv env solution_file data).1.plot =
      ([pa ++ ".Rplots.pdf", pa ++ "/" ++ basename pa ++ "_CF.pdf",
        pa ++ "/" ++ basename pa ++ "_CNA.pdf",
        pa ++ "/" ++ basename pa ++ "_LOH.pdf"]).filter env.fileExists := by
  unfold _finalize_sv
  rw [hlines]
  dsimp only
  simp only [List.getD_cons_zero, List.getD_cons_succ]
  rw [hpu, hpl, hcp, hpa]
  simp [String.append_assoc]

/-- C4: the three cached steps are idempotent: each returns the same path
whatever the filesystem answers (in particular on a second invocation), and
performs no subprocess work when its cache condition holds — the cn output
up-to-date against its input, the cell's `.titan.txt` sentinel up-to-date
against the cn file, or `optimalClusters.txt` already present. -/
theorem cached_steps_idempotent (env env' : Env)
    (cnr_file work_dir cn_file het_file : String) (ploidy num_clusters : Nat)
    (data : TItem) (ploidy_outdirs : List (Nat × String)) :
    (_titan_cn_file env cnr_file work_dir).1 = (_titan_cn_file env' cnr_file work_dir).1 ∧
    (_run_titancna env cn_file het_file ploidy num_clusters work_dir data).1 =
      (_run_titancna env' cn_file het_file ploidy num_clusters work_dir data).1 ∧
    (_run_select_solution env ploidy_outdirs work_dir).1 =
      (_run_select_solution env' ploidy_outdirs work_dir).1 ∧
    (env.fileUptodate (pathJoin work_dir (splitext_plus_base (basename cnr_file) ++ ".cn"))
        cnr_file = true →
      (_titan_cn_file env cnr_file work_dir).2 = []) ∧
    (env.fileUptodate
        (pathJoin (pathJoin work_dir ("run_ploidy" ++ toString ploidy))
          (data.name ++ "_cluster" ++ pad2 num_clusters) ++ ".titan.txt") cn_file = true →
      (_run_titancna env cn_file het_file ploidy num_clusters work_dir data).2 = []) ∧
    (env.fileExists (pathJoin work_dir "optimalClusters.txt") = true →
      (_run_select_solution env ploidy_outdirs work_dir).2 = []) := by
  refine ⟨?_, ?_, ?_, fun h => ?_, fun h => ?_, fun h => ?_⟩
  · unfold _titan_cn_file
    dsimp only
    split <;> split <;> rfl
  · rw [run_titancna_fst, run_titancna_fst]
  · unfold _run_select_solution
    dsimp only
    split <;> split <;> rfl
  · unfold _titan_cn_file
    dsimp only
    simp [h]
  · unfold _run_titancna
    dsimp only
    simp [h]
  · unfold _run_select_solution
    dsimp only
    simp [h]

/-! ## Witnesses -/

/-- Witness for `run_output_frame` on the concrete fresh world. -/
theorem run_output_frame_witness :
    pairedS1.tumor_data.vrn_files = [⟨"/in/S1-vardict.vcf.gz", "vardict"⟩] ∧
    _should_run envFresh
      (envFresh.prepVrnFile "/in/S1-vardict.vcf.gz" "vardict"
        (_sv_workdir pairedS1.tumor_data)) = true ∧
    ∃ entry effs,
      run envFresh [normalN1, tumorS1] (some pairedS1) =
        .ok (pairedS1.normal_data.toList ++
              [{ pairedS1.tumor_data with
                  sv := some (pairedS1.tumor_data.sv.getD [] ++ [entry]) }], effs) ∧
      entry.variantcaller = "titancna" :=
  ⟨rfl, by decide,
   run_output_frame envFresh [normalN1, tumorS1] pairedS1 _ [] rfl (by decide)⟩

/-- Witness for `run_gating`: the thin het table skips, the fresh three-line
world runs the full pipeline. -/
theorem run_gating_witness :
    ((envThin.fileLines (envThin.prepVrnFile "/in/S1-vardict.vcf.gz" "vardict"
        (_sv_workdir pairedS1.tumor_data))).length ≤ 2) ∧
    (run envThin [normalN1, tumorS1] (some pairedS1) =
      .ok ([normalN1, tumorS1],
        (_titan_cn_file envThin pairedS1.tumor_data.normalized_depth
          (_sv_workdir pairedS1.tumor_data)).2) ∧
     ((_titan_cn_file envThin pairedS1.tumor_data.normalized_depth
        (_sv_workdir pairedS1.tumor_data)).2).countP Effect.isTitanCell = 0) ∧
    (2 < (envFresh.fileLines (envFresh.prepVrnFile "/in/S1-vardict.vcf.gz" "vardict"
        (_sv_workdir pairedS1.tumor_data))).length) ∧
    (∃ out effs, run envFresh [normalN1, tumorS1] (some pairedS1) = .ok (out, effs) ∧
      effs.countP Effect.isTitanCell = 9 ∧
      effs.countP Effect.isSelect = 1 ∧
      effs.countP Effect.isBgzip = 1) :=
  ⟨by decide,
   (run_gating envThin [normalN1, tumorS1] pairedS1 _ [] rfl).1 (by decide),
   by decide,
   (run_gating envFresh [normalN1, tumorS1] pairedS1 _ [] rfl).2 (by decide) rfl rfl⟩

/-- Witness for `run_sweep_scenario` on the concrete fresh world. -/
theorem run_sweep_scenario_witness :
    pairedS1.tumor_data.vrn_files = [⟨"/in/S1-vardict.vcf.gz", "vardict"⟩] ∧
    _should_run envFresh
      (envFresh.prepVrnFile "/in/S1-vardict.vcf.gz" "vardict"
        (_sv_workdir pairedS1.tumor_data)) = true ∧
    (∃ out effs, run envFresh [normalN1, tumorS1] (some pairedS1) = .ok (out, effs) ∧
      effs.countP Effect.isTitanCell = 9 ∧
      effs.filter Effect.isSelect =
        [.selectSolution
          (String.intercalate " " (([2, 3, 4] : List Nat).map (fun pl =>
            "--ploidyRun" ++ toString pl ++ "=" ++
              pathJoin (_sv_workdir pairedS1.tumor_data) ("run_ploidy" ++ toString pl))))
          (pathJoin (_sv_workdir pairedS1.tumor_data) "optimalClusters.txt")] ∧
      (sweepGrid envFresh
          (_titan_cn_file envFresh pairedS1.tumor_data.normalized_depth
            (_sv_workdir pairedS1.tumor_data)).1
          (envFresh.prepVrnFile "/in/S1-vardict.vcf.gz" "vardict"
            (_sv_workdir pairedS1.tumor_data))
          (_sv_workdir pairedS1.tumor_data) pairedS1.tumor_data).1 =
        ([2, 3, 4] : List Nat).map (fun pl =>
          (pl, (_run_titancna envFresh
                  (_titan_cn_file envFresh pairedS1.tumor_data.normalized_depth
                    (_sv_workdir pairedS1.tumor_data)).1
                  (envFresh.prepVrnFile "/in/S1-vardict.vcf.gz" "vardict"
                    (_sv_workdir pairedS1.tumor_data))
                  pl 3 (_sv_workdir pairedS1.tumor_data) pairedS1.tumor_data).1))) :=
  ⟨rfl, by decide,
   run_sweep_scenario envFresh [normalN1, tumorS1] pairedS1 _ [] rfl (by decide) rfl rfl⟩

/-- Witness for `finalize_sv_parse` on the worked example of the spec. -/
theorem finalize_sv_parse_witness :
    (envSol.fileLines "/wd/optimalClusters.txt" =
      ["purity\tploidy\tcellPrev\tpath", "0.4\t2.1\t0.3, 0.7\t/out/sample"]) ∧
    dictGet ((splitChar '\t' (stripCRLF "purity\tploidy\tcellPrev\tpath")).zip
      (splitChar '\t' (stripCRLF "0.4\t2.1\t0.3, 0.7\t/out/sample"))) "purity" = some "0.4" ∧
    (_finalize_sv envSol "/wd/optimalClusters.txt" tumorS1).1.purity = "0.4" ∧
    (_finalize_sv envSol "/wd/optimalClusters.txt" tumorS1).1.ploidy = "2.1" ∧
    (_finalize_sv envSol "/wd/optimalClusters.txt" tumorS1).1.cellular_prevalence =
      ["0.3", "0.7"] ∧
    (_finalize_sv envSol "/wd/optimalClusters.txt" tumorS1).1.plot = [] := by
  have h := finalize_sv_parse envSol "/wd/optimalClusters.txt" tumorS1
    "purity\tploidy\tcellPrev\tpath" "0.4\t2.1\t0.3, 0.7\t/out/sample"
    "0.4" "2.1" "0.3, 0.7" "/out/sample" rfl (by decide) (by decide) (by decide) (by decide)
  exact ⟨rfl, by decide, h.1, h.2.1, h.2.2.1.trans (by decide), h.2.2.2.trans (by decide)⟩

/-- Witness for `cached_steps_idempotent` in a fully cached world. -/
theorem cached_steps_idempotent_witness :
    (envDone.fileUptodate
        (pathJoin "/wd" (splitext_plus_base (basename "/in/S1.cnr") ++ ".cn"))
        "/in/S1.cnr" = true) ∧
    (_titan_cn_file envDone "/in/S1.cnr" "/wd").2 = [] ∧
    (envDone.fileUptodate
        (pathJoin (pathJoin "/wd" ("run_ploidy" ++ toString 2))
          (tumorS1.name ++ "_cluster" ++ pad2 1) ++ ".titan.txt") "/wd/S1.cn" = true) ∧
    (_run_titancna envDone "/wd/S1.cn" "/wd/S1.het.csv" 2 1 "/wd" tumorS1).2 = [] ∧
    (envDone.fileExists (pathJoin "/wd" "optimalClusters.txt") = true) ∧
    (_run_select_solution envDone [(2, "/wd/run_ploidy2")] "/wd").2 = [] ∧
    (_titan_cn_file envDone "/in/S1.cnr" "/wd").1 =
      (_titan_cn_file envFresh "/in/S1.cnr" "/wd").1 := by
  have h := cached_steps_idempotent envDone envFresh "/in/S1.cnr" "/wd" "/wd/S1.cn"
    "/wd/S1.het.csv" 2 1 tumorS1 [(2, "/wd/run_ploidy2")]
  exact ⟨rfl, h.2.2.2.1 rfl, rfl, h.2.2.2.2.1 rfl, rfl, h.2.2.2.2.2 rfl, h.1⟩

end Titancna
